import Mathlib

/-!
Verification development for the `bridge-calculator` repository
(`app.py`, `bridge_capacity.py`).

Modelling conventions (shallow embedding):

* Python floats are modelled as exact rationals (`ℚ`); all closed-form
  arithmetic in the source (sums, products, divisions, integer powers,
  decimal literals) is translated literally.
* The transcendental operations `math.sqrt` and float `**` with a
  fractional exponent, and the built-in parsers `float(...)` / `int(...)`,
  have no exact rational counterpart.  They are collected in a `PyEnv`
  "interpreter library" record, and every theorem is proved for an
  arbitrary `PyEnv`, i.e. for every possible behaviour of these library
  functions.  The claims under study never depend on their values.
* Fallible Python code is modelled with `Except String`, with the error
  string recording the exception that the source raises (`ValueError`,
  `NameError`, `ZeroDivisionError`, ...).  `ℚ` division by zero (which
  yields `0` in Lean) is only relied upon in situations where the claims'
  hypotheses rule a zero denominator out.
* Python's `round(x, n)` (round half to even) is `pyRound n`.
* Display-only strings built by the source (the `calculation_process` /
  `applied_load_breakdown` texts, and the verbatim echo of the
  "Additional Loads" list at the end of the result dictionary) are not
  modelled; all numeric entries of the result dictionaries are.
-/

/-- The library functions of the Python runtime that have no exact
rational model: `math.sqrt`, float `**` with fractional exponent,
`float(str)` and `int(str)` parsing (`none` = the parse raises).
Theorems quantify over an arbitrary such environment. -/
structure PyEnv where
  sqrt : ℚ → ℚ
  rpow : ℚ → ℚ → ℚ
  parseFloat : String → Option ℚ
  parseInt : String → Option ℤ

/-- A Python value as far as `get_float` is concerned: `None`, a string,
or a non-string such as an actual number. -/
inductive PyVal where
  | none
  | str (s : String)
  | num (q : ℚ)
deriving DecidableEq

/-- Python truthiness for the values of `PyVal` (`bool(v)`). -/
def pyTruthy : PyVal → Bool
  | .none => false
  | .str s => s ≠ ""
  | .num q => q ≠ 0

/-- Python's `str.lower()` for the ASCII strings this code handles
(charwise lowercasing; written over the character list so that it
evaluates in the kernel). -/
def pyLower (s : String) : String := ⟨s.data.map Char.toLower⟩

/-- Whitespace as `str.strip()` removes it. -/
def pyIsSpace (c : Char) : Bool := c = ' ' ∨ c = '\t' ∨ c = '\n' ∨ c = '\r'

/-- Python's `str.strip()` (written over the character list so that it
evaluates in the kernel). -/
def pyStrip (s : String) : String :=
  ⟨((s.data.dropWhile pyIsSpace).reverse.dropWhile pyIsSpace).reverse⟩

/-- Python's banker rounding of a rational to the nearest integer
(`round(x)`; halves go to the even neighbour). -/
def pyRoundInt (x : ℚ) : ℤ :=
  let f : ℤ := ⌊x⌋
  let r : ℚ := x - f
  if r < 1/2 then f
  else if 1/2 < r then f + 1
  else if f % 2 = 0 then f else f + 1

/-- Python's `round(x, nd)` on exact rationals. -/
def pyRound (nd : ℕ) (x : ℚ) : ℚ :=
  (pyRoundInt (x * 10 ^ nd) : ℚ) / 10 ^ nd

/-! ## `app.py`, lines 12–29: input parsing helpers -/

/-- `get_float` (app.py:12-17).
`float(value.strip()) if value and isinstance(value, str) else default`,
with every exception mapped to `default` by the surrounding
`try`/`except`. -/
def get_float (env : PyEnv) (value : PyVal) (d : ℚ) : ℚ :=
  match value with
  | .str s =>
      if pyTruthy (.str s) then
        match env.parseFloat (pyStrip s) with
        | some q => q
        | Option.none => d
      else d
  | _ => d

/-- `get_float` applied to the result of `form_data.get(key)`
(a string when the key is present, `None` when it is missing). -/
def get_float_opt (env : PyEnv) (value : Option String) (d : ℚ) : ℚ :=
  match value with
  | some s => get_float env (.str s) d
  | Option.none => get_float env .none d

/-- `get_additional_load_sf` (app.py:19-29): safety factor of an
additional load from its material string. -/
def get_additional_load_sf (load_material : String) : ℚ :=
  if load_material = "" then 1.0
  else
    let material := pyLower (pyStrip load_material)
    if material = "steel" then 1.05
    else if material = "concrete" ∨ material = "timber" then 1.15
    else 1.0

/-! ## `app.py`, lines 32–41: steel section capacity -/

/-- Yield strength from the steel grade string
(`230.0 if sg == "S230" else (275.0 if sg == "S275" else 355.0)`),
applied to the already-stripped grade. -/
def steel_fy (sg : String) : ℚ :=
  if sg = "S230" then 230.0 else if sg = "S275" then 275.0 else 355.0

/-- `calculate_steel_capacity` (app.py:32-41): returns `(Mpe, shear_capacity)`. -/
def calculate_steel_capacity (steel_grade : String) (flange_width flange_thickness web_thickness web_depth condition_factor : ℚ) : ℚ × ℚ :=
  let fy := steel_fy (pyStrip steel_grade)
  let overall_depth := web_depth + 2 * flange_thickness
  let Z_plastic := flange_width * flange_thickness * (overall_depth - flange_thickness) +
      (web_thickness * (overall_depth - 2 * flange_thickness) ^ 2) / 4
  let Mpe := fy * (Z_plastic / 1e6)
  let shear_capacity := (fy * web_thickness * overall_depth * condition_factor) / (1.73 * 1.05 * 1.1 * 1000)
  (Mpe, shear_capacity)

/-! ## `app.py`, lines 140–180: effective length, radius of gyration, k4 -/

/-- `calculate_effective_length` (app.py:140-141). -/
def calculate_effective_length (L k1 k2 : ℚ) : ℚ := k1 * k2 * L

/-- `calculate_radius_of_gyration_strong` (app.py:143-149).

In the source the division `I_x / A` raises `ZeroDivisionError` when
the section area `A = 2*B_f*t_f + t_w*web_depth` is zero, and
`math.sqrt` raises `ValueError` when `I_x / A` is negative; the
embedding is total over `ℚ` (with `env.sqrt` an arbitrary oracle), so
every theorem in this file that asserts a *returned* result through
this function carries hypotheses — positive section dimensions and a
positive radius — confining it to inputs on which the source raises in
neither place. -/
def calculate_radius_of_gyration_strong (env : PyEnv) (B_f t_f t_w web_depth : ℚ) : ℚ :=
  let d := web_depth + 2 * t_f
  let A := 2 * (B_f * t_f) + t_w * (d - 2 * t_f)
  let I_x := (t_w ^ 3 * (d - 2 * t_f)) / 12 + 2 * ((t_f * B_f ^ 3) / 12)
  let r_x := env.sqrt (I_x / A)
  r_x / 1000

/-- `section_props_for_k4` (app.py:152-167): `(A, d, h, Ix, Iy)` in mm units. -/
def section_props_for_k4 (B_f t_f t_w web_depth_mm : ℚ) : ℚ × ℚ × ℚ × ℚ × ℚ :=
  let d := web_depth_mm + 2 * t_f
  let h := d - 2 * t_f
  let A := 2 * (B_f * t_f) + t_w * (d - 2 * t_f)
  let Ix_web := (t_w * (d - 2 * t_f) ^ 3) / 12
  let Ix_fl := 2 * ((B_f * t_f ^ 3) / 12 + (B_f * t_f) * ((d / 2 - t_f / 2) ^ 2))
  let Ix := Ix_web + Ix_fl
  let Iy := 2 * ((t_f * B_f ^ 3) / 12) + ((d - 2 * t_f) * t_w ^ 3) / 12
  (A, d, h, Ix, Iy)

/-- `k4_minor_axis` (app.py:169-180). -/
def k4_minor_axis (env : PyEnv) (Z_plastic_mm3 A_mm2 h_mm Ix_mm4 Iy_mm4 : ℚ) : ℚ :=
  if A_mm2 ≤ 0 ∨ h_mm ≤ 0 ∨ Ix_mm4 ≤ 0 then 1.0
  else
    let ratio := 1.0 - Iy_mm4 / Ix_mm4
    if ratio ≤ 0 then 1.0
    else
      let val := (4.0 * Z_plastic_mm3 ^ 2 / (A_mm2 ^ 2 * h_mm ^ 2)) * ratio
      let val := max val 0.0
      env.rpow val 0.25

/-! ## `app.py`, lines 182–250: the two static interpolation tables -/

/-- `lookup_table` (app.py:182-201) as the list of its (key, value)
pairs, in the ascending key order produced by
`sorted(lookup_table.keys())` in `get_lookup_factor`. -/
def lookup_table : List (ℚ × ℚ) :=
  [(0, 1.0), (40, 0.9), (50, 0.79875), (60, 0.7), (70, 0.58), (80, 0.55),
   (90, 0.5), (100, 0.45), (110, 0.4), (120, 0.35), (130, 0.32), (140, 0.3),
   (150, 0.28), (160, 0.26), (170, 0.24), (180, 0.22), (190, 0.2), (200, 0.18)]

/-- The scan `for i in range(len(keys)-1): if keys[i] <= X <= keys[i+1]: ...`
of `get_lookup_factor` (app.py:209-215), over the list of (key, value)
pairs; the final `return 1.0` is the fall-through case. -/
def interpPairs : List (ℚ × ℚ) → ℚ → ℚ
  | p :: q :: rest, X =>
      if p.1 ≤ X ∧ X ≤ q.1 then
        p.2 + (X - p.1) / (q.1 - p.1) * (q.2 - p.2)
      else interpPairs (q :: rest) X
  | _, _ => 1.0

/-- `get_lookup_factor` (app.py:203-215); `keys[0] = 0`, `keys[-1] = 200`. -/
def get_lookup_factor (X : ℚ) : ℚ :=
  if X ≤ 0 then 1.0
  else if 200 ≤ X then 0.18
  else interpPairs lookup_table X

/-- The static table of `calculate_v_from_F` (app.py:218-240), as a
function on the integer keys 0..20 (other indices are never accessed by
the guarded source code). -/
def vTable : ℕ → ℚ
  | 0 => 1.0 | 1 => 0.988 | 2 => 0.956 | 3 => 0.912 | 4 => 0.864
  | 5 => 0.817 | 6 => 0.774 | 7 => 0.734 | 8 => 0.699 | 9 => 0.668
  | 10 => 0.639 | 11 => 0.614 | 12 => 0.591 | 13 => 0.571 | 14 => 0.552
  | 15 => 0.535 | 16 => 0.519 | 17 => 0.505 | 18 => 0.492 | 19 => 0.479
  | 20 => 0.468 | _ => 0

/-- `calculate_v_from_F` (app.py:217-250). -/
def calculate_v_from_F (F : ℚ) : ℚ :=
  if F ≤ 0 then 1.0
  else if 20 ≤ F then vTable 20
  else
    let lower : ℤ := ⌊F⌋
    let fraction : ℚ := F - (lower : ℚ)
    vTable lower.toNat + fraction * (vTable (lower.toNat + 1) - vTable lower.toNat)

/-! ## `app.py`, lines 252–268: slenderness and the BD37 moment capacity -/

/-- `calculate_slenderness` (app.py:252-259):
returns `(slenderness, F_param, v, r)`.

In the source the division by `r * d` (line 255) — and the division by
`r` on line 258 — raises `ZeroDivisionError` when the radius of
gyration or the overall depth is zero; the embedding totalizes these
divisions, and every theorem asserting a *returned* result through
this function carries the nondegeneracy hypotheses listed on
`calculate_radius_of_gyration_strong` (which force `r > 0` and
`d > 0`). -/
def calculate_slenderness (env : PyEnv) (effective_length web_depth flange_thickness B_f t_w k4 : ℚ) : ℚ × ℚ × ℚ × ℚ :=
  let r := calculate_radius_of_gyration_strong env B_f flange_thickness t_w web_depth
  let d := web_depth + 2 * flange_thickness
  let F_param := (effective_length * flange_thickness) / (r * d)
  let v := calculate_v_from_F F_param
  let slenderness := (effective_length / r) * v * k4
  (slenderness, F_param, v, r)

/-- `calculate_bd37_moment_capacity` (app.py:261-268).

Line 266 of the source reads
`MR = (lookup_factor * Mpe * condition factor) / (1.05 * 1.1)`:
`condition factor` is not a valid Python expression (and no
`condition_factor` variable is in scope in this function either), so
executing the function can never reach the `return` statement — it
raises instead of returning `(MR, slenderness, X)`.  The embedding
therefore performs the preceding side-effect-free computations and then
fails with the corresponding error.  (For a degenerate section — zero
area, radius or depth — the source raises `ZeroDivisionError` already
inside the line-263 `calculate_slenderness` call, i.e. even earlier;
in every case the function fails rather than returning, and the
embedding records the line-266 failure uniformly.  The claims that
assert a *returned* beam result downstream of this function carry the
nondegeneracy hypotheses under which line 266 is the exception the
source actually raises.) -/
def calculate_bd37_moment_capacity (env : PyEnv) (Mpe effective_length : ℚ) (steel_grade : String) (flange_width flange_thickness web_thickness web_depth k4 : ℚ) : Except String (ℚ × ℚ × ℚ) :=
  let fy := steel_fy (pyStrip steel_grade)
  let sres := calculate_slenderness env effective_length web_depth flange_thickness flange_width web_thickness k4
  let slenderness := sres.1
  let X := if Mpe ≠ 0 then slenderness * env.sqrt (fy / 355.0) else 0.0
  let _lookup_factor := get_lookup_factor X
  .error "NameError: name condition_factor is not defined"

/-! ## `app.py`, lines 628–632: `drange`, and lines 271–334: vehicle loads -/

/-- `drange(start, stop, step)` (app.py:628-632): the values yielded by
`r = start; while r <= stop: yield r; r += step`.  Over exact rationals
with `step > 0` (the only way the source calls it, `step = 0.01`), the
generator yields exactly `start + i*step` for `0 ≤ i ≤ ⌊(stop-start)/step⌋`,
and nothing when `stop < start`. -/
def drange (start stop step : ℚ) : List ℚ :=
  if stop < start then []
  else (List.range ((⌊(stop - start) / step⌋).toNat + 1)).map (fun i => start + (i : ℚ) * step)

/-- The bending moment of the two-axle load at section `x`, for the
leading axle at `a` (the `M` cases of app.py:315-320; `R_A` as on
line 310). -/
def vehicle_M (L P1 P2 spacing a x : ℚ) : ℚ :=
  let b := a + spacing
  let R_A := (P1 * (L - a) + P2 * (L - b)) / L
  if x ≤ a then R_A * x
  else if x ≤ b then R_A * x - P1 * (x - a)
  else R_A * x - P1 * (x - a) - P2 * (x - b)

/-- The shear of the two-axle load at section `x` (the `V` cases of
app.py:321-326). -/
def vehicle_V (L P1 P2 spacing a x : ℚ) : ℚ :=
  let b := a + spacing
  let R_A := (P1 * (L - a) + P2 * (L - b)) / L
  if x < a then R_A
  else if x < b then R_A - P1
  else R_A - P1 - P2

/-- The dictionary returned by `calculate_vehicle_loads`:
`"Vehicle Maximum Moment (kNm)"` and `"Vehicle Maximum Shear (kN)"`. -/
structure VehicleLoads where
  moment : ℚ
  shear : ℚ
deriving DecidableEq

/-- The axle parameters `(spacing, P1, P2)` selected by the
`if`/`elif` chain on the stripped, lowered vehicle type
(app.py:272-286); `none` for an unrecognized type. -/
def vehicle_params (vt : String) : Option (ℚ × ℚ × ℚ) :=
  if vt = "3 tonne" then some (2.0, 21.0, 9.0)
  else if vt = "7.5 tonne" then some (2.0, 59.0, 15.0)
  else if vt = "18 tonne" then some (3.0, 64.0, 113.0)
  else none

/-- `calculate_vehicle_loads` (app.py:271-334).  The nested scan
(`for a in drange(0, L - spacing, a_step)` with the inner
`while x <= L` loop, both stepping by `0.01`) is the `foldl` below;
`R_A` is recomputed inside `vehicle_M`/`vehicle_V` instead of being
bound once per `a`, which does not change any value. -/
def calculate_vehicle_loads (env : PyEnv) (span_length : ℚ) (vehicle_type : String) (impact_factor : ℚ) (wheel_dispersion : String) (axle_mode : String) : VehicleLoads :=
  let vt := pyLower (pyStrip vehicle_type)
  match vehicle_params vt with
  | Option.none => ⟨0.0, 0.0⟩
  | some (spacing, P1a, P2a) =>
    let P1b := if pyLower (pyStrip axle_mode) = "per beam" then P1a / 2 else P1a
    let P2b := if pyLower (pyStrip axle_mode) = "per beam" then P2a / 2 else P2a
    let P1c := P1b * 1.3
    let P2c := P2b * 1.3
    let reduction_factor : ℚ :=
      match env.parseFloat wheel_dispersion with
      | some rd => if rd = 25 then 0.75 else if rd = 50 then 0.5 else 1.0
      | Option.none => 1.0
    let P1 := P1c * reduction_factor
    let P2 := P2c * reduction_factor
    let L := span_length
    let xs := drange 0 L 0.01
    let worst := (drange 0 (L - spacing) 0.01).foldl
      (fun (w : ℚ × ℚ) a =>
        let inner := xs.foldl
          (fun (mv : ℚ × ℚ) x =>
            (max mv.1 |vehicle_M L P1 P2 spacing a x|,
             max mv.2 |vehicle_V L P1 P2 spacing a x|)) (0.0, 0.0)
        (max w.1 inner.1, max w.2 inner.2)) (0.0, 0.0)
    ⟨worst.1 * impact_factor, worst.2 * impact_factor⟩

/-! ## `app.py`, lines 336–401: applied loads -/

/-- An element of the `additional_loads` list, as built by the
`/calculate` route (app.py:648-656): every key is present. -/
structure AddLoad where
  description : String
  value : ℚ
  type : String
  load_distribution : String
  load_material : String
deriving DecidableEq

/-- The data returned by a successful `calculate_applied_loads` call:
the totals, the `default_loads` dictionary of the HA branch and the
accumulated dead/live moments.  (The breakdown text is not modelled.) -/
structure AppliedOut where
  total_applied_moment : ℚ
  total_applied_shear : ℚ
  base_udl : ℚ
  effective_udl : ℚ
  kel : ℚ
  additional_dead : ℚ
  additional_live : ℚ
deriving DecidableEq

/-- The body of the `for load in additional_loads` loop
(app.py:371-397), accumulating `(additional_dead, additional_live,
additional_shear)`.  With every key present in the load dictionaries
(as the routes guarantee) the `try`/`except` never fires. -/
def applied_load_step (span_length : ℚ) (acc : ℚ × ℚ × ℚ) (load : AddLoad) : ℚ × ℚ × ℚ :=
  let load_value := load.value
  let distribution := pyLower load.load_distribution
  let load_type_str := if pyLower load.type = "" then "live" else pyLower load.type
  let load_material := pyLower load.load_material
  let add_moment := if distribution = "udl" then (load_value * span_length ^ 2) / 8
    else if distribution = "point" then (load_value * span_length) / 4
    else 0
  let add_shear := if distribution = "udl" then (load_value * span_length) / 2
    else if distribution = "point" then load_value / 2
    else 0
  if load_type_str = "dead" then
    (acc.1 + add_moment * get_additional_load_sf load_material, acc.2.1, acc.2.2 + add_shear)
  else
    (acc.1, acc.2.1 + add_moment, acc.2.2 + add_shear)

/-- `calculate_applied_loads` (app.py:336-401).

The first statement of the `"HA"` branch is
`base_udl = 230 * (1 / span_length)**0.67` (line 338): with a zero
span it raises `ZeroDivisionError` before anything else, so the zero
span is an explicit error case here.  For any `loading_type` other
than `"HA"` the function raises before returning anything: the
breakdown line 368 interpolates `base_udl`, which is assigned only in
the `"HA"` branch, so the `"HB"` branch (and the catch-all branch) hit
`NameError: name base_udl is not defined` after computing their base
moment/shear.  Only the `"HA"` branch with a nonzero span can return.
Note that line 399 rebuilds the total shear as
`effective_udl*L/2 + kel + additional_shear`, i.e. with the full `kel`,
not the `base_shear` of line 347 (which has `kel/2`). -/
def calculate_applied_loads (env : PyEnv) (span_length : ℚ) (loading_type : Option String) (additional_loads : List AddLoad) (loaded_width : Option ℚ) (access_factor : Option ℚ) : Except String AppliedOut :=
  if loading_type = some "HA" then
    if span_length = 0 then .error "ZeroDivisionError: float division by zero"
    else
      let base_udl := 230 * env.rpow (1 / span_length) 0.67
      let lw : ℚ := match loaded_width with
        | some w => if w ≤ 0 then 3.65 else w
        | Option.none => 3.65
      let af : ℚ := access_factor.getD 1.3
      let effective_udl := ((base_udl * 0.76) / (3.65 / 2.5)) * (lw / 2.5) * af
      let base_kel : ℚ := 82
      let kel := ((base_kel * 0.76) / (3.65 / 2.5)) * (lw / 2.5) * af
      let base_moment := (effective_udl * span_length ^ 2) / 8 + (kel * span_length) / 4
      let acc := additional_loads.foldl (applied_load_step span_length) (0, 0, 0)
      let additional_dead := acc.1
      let additional_live := acc.2.1
      let additional_shear := acc.2.2
      let total_applied_moment := base_moment + additional_dead + additional_live
      let total_applied_shear := (effective_udl * span_length) / 2 + kel + additional_shear
      .ok { total_applied_moment, total_applied_shear, base_udl, effective_udl, kel,
            additional_dead, additional_live }
  else
    .error "NameError: name base_udl is not defined"

/-! ## `app.py`, lines 96–137: timber, and the form-data model -/

/-- The submitted form (`request.form.to_dict()` in the routes): each
field is the submitted string, or `none` when the field is absent. -/
structure FormData where
  material : Option String := Option.none
  condition_factor : Option String := Option.none
  span_length : Option String := Option.none
  effective_member_length : Option String := Option.none
  k1 : Option String := Option.none
  k2 : Option String := Option.none
  loading_type : Option String := Option.none
  loaded_width : Option String := Option.none
  access_type : Option String := Option.none
  steel_grade : Option String := Option.none
  flange_width : Option String := Option.none
  flange_thickness : Option String := Option.none
  web_thickness : Option String := Option.none
  beam_depth : Option String := Option.none
  concrete_grade : Option String := Option.none
  beam_width : Option String := Option.none
  concrete_beam_depth : Option String := Option.none
  reinforcement_strength : Option String := Option.none
  timber_beam_width : Option String := Option.none
  timber_beam_depth : Option String := Option.none
  timber_grade : Option String := Option.none
  timber_K3 : Option String := Option.none
  vehicle_type : Option String := Option.none
  vehicle_impact_factor : Option String := Option.none
  wheel_dispersion : Option String := Option.none
  axle_load_mode : Option String := Option.none
deriving DecidableEq

/-- The `timber_properties` dictionary lookup with its default
(app.py:105-114): `(bending_parallel, shear_parallel)`. -/
def timber_props (grade : Option String) : ℚ × ℚ :=
  match grade with
  | some "C16" => (16.0, 1.8)
  | some "C24" => (24.0, 2.5)
  | some "D40" => (40.0, 4.0)
  | some "D50" => (50.0, 4.0)
  | some "GL28c" => (28.0, 3.2)
  | some "GL28h" => (28.0, 2.7)
  | some "Birch" => (26.1, 2.6)
  | _ => (16.0, 1.8)

/-- The dictionary returned by `calculate_timber_beam` (app.py:125-136);
`b1`, `b2` and the two capacities are stored rounded to 3 decimals. -/
structure TimberResults where
  width : ℚ
  depth : ℚ
  grade : Option String
  K2 : ℚ
  K3 : ℚ
  K7 : ℚ
  b1 : ℚ
  b2 : ℚ
  bending_capacity : ℚ
  shear_capacity : ℚ
deriving DecidableEq

/-- `calculate_timber_beam` (app.py:97-137). -/
def calculate_timber_beam (env : PyEnv) (form_data : FormData) : TimberResults :=
  let timber_beam_width := get_float_opt env form_data.timber_beam_width 0
  let timber_beam_depth := get_float_opt env form_data.timber_beam_depth 0
  let timber_grade := form_data.timber_grade
  let timber_K3 := get_float_opt env form_data.timber_K3 0
  let timber_K2 : ℚ := 0.8
  let timber_K7 := if 0 < timber_beam_depth then env.rpow (300 / timber_beam_depth) 0.11 else 0
  let props := timber_props timber_grade
  let bending_parallel := props.1
  let shear_parallel := props.2
  let b1 := bending_parallel * timber_K2 * timber_K3 * timber_K7
  let b2 := shear_parallel * timber_K2 * timber_K3 * timber_K7
  let Z := (timber_beam_width * timber_beam_depth ^ 2) / 6
  let timber_moment_capacity := (Z * b1) / 1e6
  let timber_shear_capacity := (b2 * timber_beam_width * timber_beam_depth) / 1e3
  { width := timber_beam_width, depth := timber_beam_depth, grade := timber_grade,
    K2 := timber_K2, K3 := timber_K3, K7 := timber_K7,
    b1 := pyRound 3 b1, b2 := pyRound 3 b2,
    bending_capacity := pyRound 3 timber_moment_capacity,
    shear_capacity := pyRound 3 timber_shear_capacity }

/-! ## `app.py`, lines 44–94: concrete capacity -/

/-- The reinforcement entry lists read from `request.form.getlist`
(`reinforcement_num[]`, `reinforcement_diameter[]`,
`reinforcement_cover[]`). -/
structure ReinfForm where
  nums : List String := []
  diameters : List String := []
  covers : List String := []
deriving DecidableEq

/-- Python's three-list `zip`: truncates to the shortest list. -/
def zip3 : List String → List String → List String → List (String × String × String)
  | x :: xs, y :: ys, z :: zs => (x, y, z) :: zip3 xs ys zs
  | _, _, _ => []

/-- The decimal value of the IEEE-754 double `math.pi`
(`3.141592653589793`), the constant the source multiplies with. -/
def pyPi : ℚ := 3.141592653589793

/-- The `for num, dia, cover in zip(...)` loop of
`calculate_concrete_capacity` (app.py:60-72), accumulating
`(total_As, weighted_depth)`; it raises `ValueError` for a cover at or
above the total depth, and `int(num)` raises for a non-integer string. -/
def concrete_reinf_loop (env : PyEnv) (total_depth : ℚ) : List (String × String × String) → ℚ → ℚ → Except String (ℚ × ℚ)
  | [], tAs, wd => .ok (tAs, wd)
  | (num, dia, cover) :: rest, tAs, wd =>
    if num ≠ "" ∧ dia ≠ "" ∧ cover ≠ "" then
      let cover_val := get_float env (.str cover) 0
      if total_depth ≤ cover_val then
        .error "Invalid reinforcement cover: cover must be less than total depth."
      else
        match env.parseInt num with
        | Option.none => .error "invalid literal for int() with base 10"
        | some n =>
          let dia_val := get_float env (.str dia) 0
          let A_layer := (n : ℚ) * (pyPi / 4) * dia_val ^ 2
          let d_layer := total_depth - (cover_val + dia_val / 2)
          concrete_reinf_loop env total_depth rest (tAs + A_layer) (wd + A_layer * d_layer)
    else concrete_reinf_loop env total_depth rest tAs wd

/-- `calculate_concrete_capacity` (app.py:44-94), with the default
values `partial_factor_concrete = 1.5`, `partial_factor_reinf = 1.15`,
`partial_factor_shear = 1.25` of its keyword parameters (the only call
uses the defaults).  Returns
`(moment_capacity, Vu_kN, Mus, Muc, d_eff, total_As)`; raises
`ValueError` when no reinforcement area was accumulated.  The function
reads the reinforcement lists from the global `request`, modelled by the
explicit `reinf` argument. -/
def calculate_concrete_capacity (env : PyEnv) (reinf : ReinfForm) (concrete_grade : Option String) (beam_width total_depth reinforcement_strength condition_factor : ℚ) : Except String (ℚ × ℚ × ℚ × ℚ × ℚ × ℚ) :=
  let fcu : ℚ := if concrete_grade = some "C32/40" then 40 else 50
  let f_y := reinforcement_strength
  let f_y_design := f_y / 1.15
  match concrete_reinf_loop env total_depth (zip3 reinf.nums reinf.diameters reinf.covers) 0 0 with
  | .error e => .error e
  | .ok (total_As, weighted_depth) =>
    if total_As = 0 then
      .error "No reinforcement provided. Please enter valid reinforcement details."
    else
      let d_eff := weighted_depth / total_As
      let z_calculated := d_eff * (1 - (0.84 * (f_y / 1.15) * total_As) / ((fcu / 1.5) * beam_width * d_eff))
      let z := min z_calculated (0.95 * d_eff)
      let Mus := (f_y_design * total_As * z) / 1e6
      let Muc := (0.225 * (fcu / 1.5) * beam_width * d_eff ^ 2) / 1e6
      let moment_capacity := min Mus Muc * condition_factor
      let Ss0 := env.rpow (550 / d_eff) 0.25
      let Ss := if 1 < Ss0 then 1 else Ss0
      let vc := (0.24 / 1.25) * (env.rpow ((100 * total_As) / (beam_width * d_eff)) 0.333 * env.rpow fcu 0.333)
      let Vu := Ss * vc * beam_width * d_eff
      let Vu_kN := Vu / 1000
      .ok (moment_capacity, Vu_kN, Mus, Muc, d_eff, total_As)

/-! ## `app.py`, lines 403–626: `calculate_beam_capacity` -/

/-- The steel parameters the later parts of `calculate_beam_capacity`
reuse (self-weight, display recomputation): local variables of the
`material == "Steel"` branch. -/
structure SteelData where
  steel_grade : String
  flange_width : ℚ
  flange_thickness : ℚ
  web_thickness : ℚ
  web_depth : ℚ
  k4 : ℚ
  Mpe : ℚ
deriving DecidableEq

/-- The concrete values reused by the result assembly
(app.py:601-605). -/
structure ConcreteData where
  Mus : ℚ
  Muc : ℚ
  d_eff : ℚ
  total_As : ℚ
deriving DecidableEq

/-- What a material branch of `calculate_beam_capacity` leaves behind:
the two capacities and the material-specific data the tail of the
function reads. -/
structure BranchOut where
  moment_capacity : ℚ
  shear_capacity : ℚ
  steel : Option SteelData := Option.none
  concrete : Option ConcreteData := Option.none
  timber : Option TimberResults := Option.none
deriving DecidableEq

/-- The `reinforcement_layers` construction (app.py:497-503):
`int(num)` runs outside any `try`, so a non-integer entry makes the
whole request fail. -/
def build_layers (env : PyEnv) : List (String × String × String) → Except String (List (ℤ × ℚ × ℚ))
  | [] => .ok []
  | (num, dia, cover) :: rest =>
    if num ≠ "" ∧ dia ≠ "" ∧ cover ≠ "" then
      match env.parseInt num with
      | Option.none => .error "ValueError: invalid literal for int() with base 10"
      | some n =>
        match build_layers env rest with
        | .error e => .error e
        | .ok l => .ok ((n, get_float env (.str dia) 0, get_float env (.str cover) 0) :: l)
    else build_layers env rest

/-- The material dispatch of `calculate_beam_capacity`
(app.py:422-541).  `.inl msg` is the early `return {"error": msg}` of
the concrete branch; `.inr` carries the branch's capacities.  In the
steel branch the `try`/`except` around `calculate_bd37_moment_capacity`
(app.py:452-466) is the `match` below: on error the moment capacity
falls back to `Mpe` (the recomputed slenderness and X of the handler
feed only the breakdown text). -/
def material_branch (env : PyEnv) (form_data : FormData) (reinf : ReinfForm) (condition_factor effective_length : ℚ) : Except String (Sum String BranchOut) :=
  if form_data.material = some "Steel" then
    match form_data.steel_grade with
    | Option.none => .error "AttributeError: NoneType object has no attribute strip"
    | some steel_grade =>
      let flange_width := get_float_opt env form_data.flange_width 0
      let flange_thickness := get_float_opt env form_data.flange_thickness 0
      let web_thickness := get_float_opt env form_data.web_thickness 0
      let web_depth := get_float_opt env form_data.beam_depth 0
      let ms := calculate_steel_capacity steel_grade flange_width flange_thickness web_thickness web_depth condition_factor
      let Mpe := ms.1
      let shear_capacity := ms.2
      let overall_depth := web_depth + 2 * flange_thickness
      let Z_plastic := flange_width * flange_thickness * (overall_depth - flange_thickness) +
          (web_thickness * (overall_depth - 2 * flange_thickness) ^ 2) / 4
      let props := section_props_for_k4 flange_width flange_thickness web_thickness web_depth
      let k4 := k4_minor_axis env Z_plastic props.1 props.2.2.1 props.2.2.2.1 props.2.2.2.2
      let moment_capacity :=
        match calculate_bd37_moment_capacity env Mpe effective_length steel_grade flange_width flange_thickness web_thickness web_depth k4 with
        | .ok mrx => mrx.1
        | .error _ => Mpe
      .ok (.inr { moment_capacity, shear_capacity,
                  steel := some { steel_grade, flange_width, flange_thickness,
                                  web_thickness, web_depth, k4, Mpe } })
  else if form_data.material = some "Concrete" then
      let concrete_grade := form_data.concrete_grade
      let beam_width := get_float_opt env form_data.beam_width 0
      let td0 := get_float_opt env form_data.concrete_beam_depth 0
      let total_depth := if td0 = 0 then get_float_opt env form_data.beam_depth 0 else td0
      let reinforcement_strength := get_float_opt env form_data.reinforcement_strength 500.0
      match build_layers env (zip3 reinf.nums reinf.diameters reinf.covers) with
      | .error e => .error e
      | .ok layers =>
        if layers = [] then
          .ok (.inl "No reinforcement provided. Please enter valid reinforcement details.")
        else
          match calculate_concrete_capacity env reinf concrete_grade beam_width total_depth reinforcement_strength condition_factor with
          | .error e => .ok (.inl e)
          | .ok out =>
            .ok (.inr { moment_capacity := out.1, shear_capacity := out.2.1,
                        concrete := some { Mus := out.2.2.1, Muc := out.2.2.2.1,
                                           d_eff := out.2.2.2.2.1, total_As := out.2.2.2.2.2 } })
  else if form_data.material = some "Timber" then
      let tr := calculate_timber_beam env form_data
      .ok (.inr { moment_capacity := tr.bending_capacity, shear_capacity := tr.shear_capacity,
                  timber := some tr })
  else .ok (.inr { moment_capacity := 0.0, shear_capacity := 0.0 })

/-- The result dictionary of `calculate_beam_capacity`
(app.py:568-622).  Fields without a `_raw` suffix are stored exactly as
the dictionary stores them (i.e. after the source's `round(·, k)`);
the `_raw` fields keep the unrounded quantities that line 561 compares
to decide `pass_fail`. -/
structure BeamResult where
  span_length : ℚ
  effective_member_length : ℚ
  k1 : ℚ
  k2 : ℚ
  reduction_factor : ℚ
  moment_capacity : ℚ
  shear_capacity : ℚ
  applied_moment_uls : ℚ
  applied_shear_uls : ℚ
  applied_live : ℚ
  applied_dead : ℚ
  self_weight_moment : ℚ
  utilisation_ratio : Option ℚ
  pass_fail : String
  loading_type : Option String
  condition_factor : ℚ
  loaded_width : ℚ
  access_type : String
  steel_k4 : Option ℚ
  steel_slenderness : Option ℚ
  steel_x : Option ℚ
  mus : Option ℚ
  muc : Option ℚ
  effective_depth : Option ℚ
  total_reinf_area : Option ℚ
  timber : Option TimberResults
  ha_udl : Option ℚ
  ha_kel : Option ℚ
  vehicle_moment : Option ℚ
  vehicle_shear : Option ℚ
  moment_capacity_raw : ℚ
  shear_capacity_raw : ℚ
  total_applied_moment_raw : ℚ
  applied_shear_raw : ℚ
  applied_moment_raw : ℚ
  self_weight_moment_raw : ℚ
deriving DecidableEq

/-- What `calculate_beam_capacity` hands back when it does not raise:
either the early `{"error": ...}` dictionary of the concrete branch or
the full result dictionary. -/
inductive BeamReturn where
  | errDict (msg : String)
  | result (r : BeamResult)
deriving DecidableEq

/-- `calculate_beam_capacity(form_data, loads)` (app.py:403-626).  The
reinforcement lists the function (and `calculate_concrete_capacity`)
reads from the global `request.form` are the explicit `reinf`
argument. -/
def calculate_beam_capacity (env : PyEnv) (form_data : FormData) (reinf : ReinfForm) (loads : List AddLoad) : Except String BeamReturn :=
  let condition_factor := get_float_opt env form_data.condition_factor 1.0
  let span_length := get_float_opt env form_data.span_length 0
  let L_actual := get_float_opt env form_data.effective_member_length span_length
  let k1 := get_float_opt env form_data.k1 1.0
  let k2 := get_float_opt env form_data.k2 1.0
  let effective_length := calculate_effective_length L_actual k1 k2
  let loading_type := form_data.loading_type
  let loaded_width := get_float_opt env form_data.loaded_width 3.65
  let access_str := form_data.access_type.getD "Company"
  let access_factor : ℚ := if pyLower access_str = "public" then 1.5 else 1.3
  match material_branch env form_data reinf condition_factor effective_length with
  | .error e => .error e
  | .ok (.inl msg) => .ok (.errDict msg)
  | .ok (.inr br) =>
    let reduction_factor := if effective_length < span_length then effective_length / span_length else 1.0
    let moment_capacity := if effective_length < span_length then br.moment_capacity * (effective_length / span_length) else br.moment_capacity
    match calculate_applied_loads env span_length loading_type loads (some loaded_width) (some access_factor) with
    | .error e => .error e
    | .ok ap =>
      let shear_capacity := br.shear_capacity
      let self_weight_moment : ℚ :=
        match br.steel with
        | some sd =>
          let A_steel := 2 * (sd.flange_width * sd.flange_thickness) + sd.web_thickness * sd.web_depth
          let self_weight := (A_steel / 1e6) * 7850 * 9.81 / 1000
          ((self_weight * span_length ^ 2) / 8) * 1.05
        | Option.none => 0.0
      let total_applied_moment := ap.total_applied_moment + self_weight_moment
      let utilisation_ratio : Option ℚ :=
        if 0 < moment_capacity then some (total_applied_moment / moment_capacity) else Option.none
      let pass_fail :=
        if total_applied_moment ≤ moment_capacity ∧ ap.total_applied_shear ≤ shear_capacity
        then "Pass" else "Fail"
      let applied_live := ap.total_applied_moment - ap.additional_dead
      let applied_dead := ap.additional_dead + self_weight_moment
      let steel_fields : Option ℚ × Option ℚ × Option ℚ :=
        match br.steel with
        | some sd =>
          let sres := calculate_slenderness env effective_length sd.web_depth sd.flange_thickness sd.flange_width sd.web_thickness sd.k4
          let fy_disp : ℚ := if sd.steel_grade = "S230" then 230 else if sd.steel_grade = "S275" then 275 else 355
          (some (pyRound 3 sd.k4), some (pyRound 1 sres.1),
           some (pyRound 1 (sres.1 * env.sqrt (fy_disp / 355.0))))
        | Option.none => (Option.none, Option.none, Option.none)
      let vehicle_type := pyStrip (form_data.vehicle_type.getD "")
      let vehicle_impact_factor := get_float_opt env form_data.vehicle_impact_factor 1.0
      let wheel_dispersion := pyStrip (form_data.wheel_dispersion.getD "none")
      let axle_mode := pyStrip (form_data.axle_load_mode.getD "per beam")
      let veh : Option ℚ × Option ℚ :=
        if vehicle_type ≠ "" ∧ pyLower vehicle_type ≠ "none" then
          let vr := calculate_vehicle_loads env span_length vehicle_type vehicle_impact_factor wheel_dispersion axle_mode
          (some (pyRound 1 vr.moment), some (pyRound 1 vr.shear))
        else (Option.none, Option.none)
      .ok (.result {
        span_length := pyRound 1 span_length,
        effective_member_length := pyRound 1 effective_length,
        k1 := pyRound 1 k1,
        k2 := pyRound 1 k2,
        reduction_factor := pyRound 1 reduction_factor,
        moment_capacity := pyRound 1 moment_capacity,
        shear_capacity := pyRound 1 shear_capacity,
        applied_moment_uls := pyRound 1 total_applied_moment,
        applied_shear_uls := pyRound 1 ap.total_applied_shear,
        applied_live := pyRound 1 applied_live,
        applied_dead := pyRound 1 applied_dead,
        self_weight_moment := pyRound 1 self_weight_moment,
        utilisation_ratio := utilisation_ratio.map (pyRound 1),
        pass_fail,
        loading_type,
        condition_factor := pyRound 1 condition_factor,
        loaded_width := pyRound 1 loaded_width,
        access_type := access_str,
        steel_k4 := steel_fields.1,
        steel_slenderness := steel_fields.2.1,
        steel_x := steel_fields.2.2,
        mus := br.concrete.map (fun c => pyRound 1 c.Mus),
        muc := br.concrete.map (fun c => pyRound 1 c.Muc),
        effective_depth := br.concrete.map (fun c => pyRound 1 c.d_eff),
        total_reinf_area := br.concrete.map (fun c => pyRound 1 c.total_As),
        timber := br.timber,
        ha_udl := if loading_type = some "HA" ∨ loading_type = some "HB"
                  then some (pyRound 1 ap.effective_udl) else Option.none,
        ha_kel := if loading_type = some "HA" then some (pyRound 1 ap.kel) else Option.none,
        vehicle_moment := veh.1,
        vehicle_shear := veh.2,
        moment_capacity_raw := moment_capacity,
        shear_capacity_raw := shear_capacity,
        total_applied_moment_raw := total_applied_moment,
        applied_shear_raw := ap.total_applied_shear,
        applied_moment_raw := ap.total_applied_moment,
        self_weight_moment_raw := self_weight_moment })

/-! ## `bridge_capacity.py` -/

/-- The result dictionary of `calculate_bridge_capacity`
(bridge_capacity.py:57-61).  `moment_capacity_kNm` and
`shear_capacity_kN` are stored rounded to 2 decimals; the `_raw`
fields keep the unrounded capacities that line 55 compares to decide
`pass_fail`. -/
structure BridgeResult where
  moment_capacity_kNm : ℚ
  shear_capacity_kN : ℚ
  pass_fail : String
  moment_raw : ℚ
  shear_raw : ℚ
deriving DecidableEq

/-- `d.get(key, default)` for a Python dictionary modelled as an
association list with distinct keys. -/
def dict_get (l : List (String × ℚ)) (k : String) (d : ℚ) : ℚ :=
  match l with
  | [] => d
  | (k2, v) :: rest => if k = k2 then v else dict_get rest k d

/-- The keys of the `material_properties` dictionary
(bridge_capacity.py:27-31); only membership is consulted downstream. -/
def bridge_materials : List String := ["Steel", "Concrete", "Composite"]

/-- Lines 50-61 of `bridge_capacity.py`: apply the material safety
factor (raising `ZeroDivisionError` when it is zero), decide the
placeholder compliance check, and round the returned capacities. -/
def bridge_finish (material : String) (safety_factors : List (String × ℚ)) (mc0 : ℚ × ℚ) : Except String BridgeResult :=
  let safety_factor := dict_get safety_factors (pyLower material) 1.0
  if safety_factor = 0 then .error "ZeroDivisionError: float division by zero"
  else
    let moment_capacity := mc0.1 / safety_factor
    let shear_capacity := mc0.2 / safety_factor
    let pass_fail := if shear_capacity < moment_capacity then "Pass" else "Fail"
    .ok { moment_capacity_kNm := pyRound 2 moment_capacity,
          shear_capacity_kN := pyRound 2 shear_capacity,
          pass_fail,
          moment_raw := moment_capacity,
          shear_raw := shear_capacity }

/-- `calculate_bridge_capacity` (bridge_capacity.py:3-61).
`applied_loads` and `safety_factors` are the two dictionaries,
modelled as association lists with distinct keys (`dict_get` is
`safety_factors.get(key, 1.0)`). -/
def calculate_bridge_capacity (bridge_type : String) (span_length : ℚ) (material : String) (_beam_section : String) (applied_loads : List (String × ℚ)) (safety_factors : List (String × ℚ)) : Except String BridgeResult :=
  if material ∉ bridge_materials then
    .error "ValueError: Material not recognized."
  else
    let load_factor := (applied_loads.map Prod.snd).sum
    if bridge_type = "Simply Supported" then
      bridge_finish material safety_factors
        ((load_factor * span_length ^ 2) / 8, load_factor * span_length / 2)
    else if bridge_type = "Cantilever" then
      bridge_finish material safety_factors
        ((load_factor * span_length ^ 2) / 2, load_factor * span_length)
    else
      .error "ValueError: Unsupported bridge type."

/-! ## Claim-side (specification) definitions -/

/-- Claim-side restatement of C8's description of `get_float`: the
parsed value of `value.strip()` for a non-empty string that parses,
the default in every other case. -/
def get_float_spec (env : PyEnv) (value : PyVal) (d : ℚ) : ℚ :=
  match value with
  | .str s =>
    if s ≠ "" then
      match env.parseFloat (pyStrip s) with
      | some q => q
      | Option.none => d
    else d
  | .num _ => d
  | .none => d

/-- The maximum of a list of rationals and `0` (the accumulators of
`calculate_vehicle_loads` start at `0.0`). -/
def listMax : List ℚ → ℚ
  | [] => 0
  | x :: xs => max x (listMax xs)

/-- Claim-side statement of C5: the vehicle-load search is the
impact-factored maximum of the absolute moment (resp. shear) of the
factored two-axle load over the whole discretized grid
`a ∈ drange 0 (L - spacing)`, `x ∈ drange 0 L` (step 0.01), and `0`
for an unrecognized vehicle type. -/
def vehicle_loads_spec (env : PyEnv) (span_length : ℚ) (vehicle_type : String) (impact_factor : ℚ) (wheel_dispersion : String) (axle_mode : String) : VehicleLoads :=
  match vehicle_params (pyLower (pyStrip vehicle_type)) with
  | Option.none => ⟨0.0, 0.0⟩
  | some (spacing, P1a, P2a) =>
    let per_beam := pyLower (pyStrip axle_mode) = "per beam"
    let reduction_factor : ℚ :=
      match env.parseFloat wheel_dispersion with
      | some rd => if rd = 25 then 0.75 else if rd = 50 then 0.5 else 1.0
      | Option.none => 1.0
    let P1 := (if per_beam then P1a / 2 else P1a) * 1.3 * reduction_factor
    let P2 := (if per_beam then P2a / 2 else P2a) * 1.3 * reduction_factor
    let L := span_length
    let abscissas := drange 0 (L - spacing) 0.01
    let sections := drange 0 L 0.01
    ⟨impact_factor * listMax (abscissas.flatMap fun a => sections.map fun x => |vehicle_M L P1 P2 spacing a x|),
     impact_factor * listMax (abscissas.flatMap fun a => sections.map fun x => |vehicle_V L P1 P2 spacing a x|)⟩

/-- Claim-side C4: the moment contribution of one additional load
(dead loads scaled by the material safety factor, live loads
unscaled). -/
def load_moment_contrib (span_length : ℚ) (load : AddLoad) : ℚ :=
  let base := if pyLower load.load_distribution = "udl" then (load.value * span_length ^ 2) / 8
    else if pyLower load.load_distribution = "point" then (load.value * span_length) / 4
    else 0
  let lt := if pyLower load.type = "" then "live" else pyLower load.type
  if lt = "dead" then base * get_additional_load_sf (pyLower load.load_material) else base

/-- Claim-side C4: the shear contribution of one additional load
(never scaled). -/
def load_shear_contrib (span_length : ℚ) (load : AddLoad) : ℚ :=
  if pyLower load.load_distribution = "udl" then (load.value * span_length) / 2
  else if pyLower load.load_distribution = "point" then load.value / 2
  else 0

/-- Claim-side C4: the effective UDL of an HA loading
(app.py:343). -/
def ha_effective_udl (env : PyEnv) (span_length : ℚ) (loaded_width access_factor : Option ℚ) : ℚ :=
  let base_udl := 230 * env.rpow (1 / span_length) 0.67
  let lw : ℚ := match loaded_width with
    | some w => if w ≤ 0 then 3.65 else w
    | Option.none => 3.65
  ((base_udl * 0.76) / (3.65 / 2.5)) * (lw / 2.5) * (access_factor.getD 1.3)

/-- Claim-side C4: the HA knife-edge load (app.py:345). -/
def ha_kel (_span_length : ℚ) (loaded_width access_factor : Option ℚ) : ℚ :=
  let lw : ℚ := match loaded_width with
    | some w => if w ≤ 0 then 3.65 else w
    | Option.none => 3.65
  (((82 : ℚ) * 0.76) / (3.65 / 2.5)) * (lw / 2.5) * (access_factor.getD 1.3)

/-- Claim-side C4: the HA base moment (app.py:346). -/
def ha_base_moment (env : PyEnv) (span_length : ℚ) (loaded_width access_factor : Option ℚ) : ℚ :=
  (ha_effective_udl env span_length loaded_width access_factor * span_length ^ 2) / 8 +
    (ha_kel span_length loaded_width access_factor * span_length) / 4

/-- Claim-side C4: the HA base shear (app.py:347): effective UDL
reaction plus half the knife-edge load. -/
def ha_base_shear (env : PyEnv) (span_length : ℚ) (loaded_width access_factor : Option ℚ) : ℚ :=
  (ha_effective_udl env span_length loaded_width access_factor * span_length) / 2 +
    ha_kel span_length loaded_width access_factor / 2

/-! ## Concrete fixtures used by the witness theorems -/

/-- A concrete interpreter environment for witnesses: every library
call returns `1` (any other choice would do — the theorems hold for all
environments). -/
def envC : PyEnv :=
  { sqrt := fun _ => 1, rpow := fun _ _ => 1,
    parseFloat := fun _ => some 1, parseInt := fun _ => some 1 }

/-- A timber form with HA loading and span 1 (witness input). -/
def fdTimberW : FormData :=
  { material := some "Timber", loading_type := some "HA", span_length := some "1" }

/-- A default `BeamResult` (only used as the fall-through of
`c1res`). -/
def beamFallback : BeamResult :=
  { span_length := 0, effective_member_length := 0, k1 := 0, k2 := 0,
    reduction_factor := 0, moment_capacity := 0, shear_capacity := 0,
    applied_moment_uls := 0, applied_shear_uls := 0, applied_live := 0,
    applied_dead := 0, self_weight_moment := 0, utilisation_ratio := Option.none,
    pass_fail := "", loading_type := Option.none, condition_factor := 0,
    loaded_width := 0, access_type := "", steel_k4 := Option.none,
    steel_slenderness := Option.none, steel_x := Option.none, mus := Option.none,
    muc := Option.none, effective_depth := Option.none, total_reinf_area := Option.none,
    timber := Option.none, ha_udl := Option.none, ha_kel := Option.none,
    vehicle_moment := Option.none, vehicle_shear := Option.none,
    moment_capacity_raw := 0, shear_capacity_raw := 0, total_applied_moment_raw := 0,
    applied_shear_raw := 0, applied_moment_raw := 0, self_weight_moment_raw := 0 }

/-- The result of the C1 witness computation. -/
def c1res : BeamResult :=
  match calculate_beam_capacity envC fdTimberW ⟨[], [], []⟩ [] with
  | .ok (.result r) => r
  | _ => beamFallback

/-! ## Claim theorems -/

/-- C8: `get_float` is total (its embedding returns a plain `ℚ`, there
is no error case) and, for every parsing behaviour of the runtime's
`float`, it returns the parse of `value.strip()` when `value` is a
non-empty string that parses, and the default in every other case —
empty strings, strings that fail to parse, `None`, and non-string
inputs such as actual numbers. -/
theorem C8_get_float_total_spec :
    ∀ (env : PyEnv) (v : PyVal) (d : ℚ), get_float env v d = get_float_spec env v d := by
  intro env v d
  cases v <;> simp [get_float, get_float_spec, pyTruthy]

/-- C3 (code bug): `calculate_bd37_moment_capacity` never returns the
interpolated moment capacity together with the slenderness and X — for
every input it raises, because line 266 of `app.py` reads
`MR = (lookup_factor * Mpe * condition factor) / (1.05 * 1.1)` where
`condition factor` is not a valid expression and no `condition_factor`
is in scope in that function.  (The breakdown text the source itself
prints at app.py:481 documents the intended formula of the claim.) -/
theorem C3_bd37_always_raises :
    ∀ (env : PyEnv) (Mpe effective_length : ℚ) (sg : String) (fw tf tw wd k4 : ℚ),
      calculate_bd37_moment_capacity env Mpe effective_length sg fw tf tw wd k4 =
        .error "NameError: name condition_factor is not defined" := by
  intro env Mpe el sg fw tf tw wd k4
  rfl

/-- C7: `calculate_beam_capacity` is deterministic and stateless: with
the same runtime library, identical form data, identical reinforcement
field lists (the only data it reads from the global `request`) and
identical additional-load lists, two calls return identical results —
the embedding takes no other input, there is no further state to carry
over between requests. -/
theorem C7_deterministic :
    ∀ (env : PyEnv) (fd1 fd2 : FormData) (rf1 rf2 : ReinfForm) (l1 l2 : List AddLoad),
      fd1 = fd2 → rf1 = rf2 → l1 = l2 →
      calculate_beam_capacity env fd1 rf1 l1 = calculate_beam_capacity env fd2 rf2 l2 := by
  intro env fd1 fd2 rf1 rf2 l1 l2 h1 h2 h3
  rw [h1, h2, h3]

/-- Witness for C7 at a concrete input. -/
theorem C7_deterministic_witness :
    calculate_beam_capacity envC fdTimberW ⟨[], [], []⟩ [] =
      calculate_beam_capacity envC fdTimberW ⟨[], [], []⟩ [] :=
  C7_deterministic envC fdTimberW fdTimberW ⟨[], [], []⟩ ⟨[], [], []⟩ [] [] rfl rfl rfl

/-- C2 (counterexample): `pass_fail` cannot be the outcome of a
capacity-versus-load-effects check.  The two calls below share the same
`applied_loads` (so the same load effects `em`, `es`, whatever they
are), yet the first — with pointwise *smaller* capacities (100, 50) —
passes, while the second — with capacities (100, 100) — fails, so no
load-effect thresholds can explain the two outcomes.  (Line 55 of the
source is explicitly `# Check compliance (Placeholder logic for now)`:
it compares the two capacities with each other.) -/
theorem C2_counterexample :
    ¬ ∃ em es : ℚ,
      (∀ r : BridgeResult,
        calculate_bridge_capacity "Simply Supported" 8 "Steel" "I-beam" [("traffic", 50)] [("steel", 4)] = .ok r →
        (r.pass_fail = "Pass" ↔ em ≤ r.moment_raw ∧ es ≤ r.shear_raw)) ∧
      (∀ r : BridgeResult,
        calculate_bridge_capacity "Simply Supported" 4 "Steel" "I-beam" [("traffic", 50)] [] = .ok r →
        (r.pass_fail = "Pass" ↔ em ≤ r.moment_raw ∧ es ≤ r.shear_raw)) := by
  rintro ⟨em, es, h1, h2⟩
  have e1 := h1 { moment_capacity_kNm := 100, shear_capacity_kN := 50, pass_fail := "Pass",
                  moment_raw := 100, shear_raw := 50 }
    (by norm_num [calculate_bridge_capacity, bridge_materials, bridge_finish, pyRound, pyRoundInt,
          dict_get, show pyLower "Steel" = "steel" from by decide])
  have e2 := h2 { moment_capacity_kNm := 100, shear_capacity_kN := 100, pass_fail := "Fail",
                  moment_raw := 100, shear_raw := 100 }
    (by norm_num [calculate_bridge_capacity, bridge_materials, bridge_finish, pyRound, pyRoundInt,
          dict_get, show pyLower "Steel" = "steel" from by decide])
  obtain ⟨hm, hs⟩ := e1.mp rfl
  have hfail : ("Fail" : String) = "Pass" := e2.mpr ⟨hm, le_trans hs (by norm_num)⟩
  exact absurd hfail (by decide)

/-- C2 (amended): for every call of `calculate_bridge_capacity` that
returns a result, `pass_fail` is `"Pass"` exactly when the computed
moment capacity strictly exceeds the computed shear capacity — the
placeholder compliance logic of line 55; the applied loads enter only
through the capacities themselves. -/
theorem C2_amended :
    ∀ (bt : String) (sp : ℚ) (mat bs : String) (loads sfs : List (String × ℚ)) (r : BridgeResult),
      calculate_bridge_capacity bt sp mat bs loads sfs = .ok r →
      (r.pass_fail = "Pass" ↔ r.shear_raw < r.moment_raw) := by
  intro bt sp mat bs loads sfs r h
  rw [calculate_bridge_capacity] at h
  dsimp only at h
  split_ifs at h with h1 h2 h3 <;>
    first
      | exact Except.noConfusion h
      | (rw [bridge_finish] at h
         dsimp only at h
         split_ifs at h with hsf hpf <;>
           first
             | exact Except.noConfusion h
             | (rw [Except.ok.injEq] at h
                subst h
                dsimp only
                constructor
                · intro hx
                  first
                    | exact hpf
                    | exact absurd hx (by decide)
                · intro hc
                  first
                    | rfl
                    | exact absurd hc hpf))

/-- Witness for C2 (amended) at a concrete input. -/
theorem C2_amended_witness :
    calculate_bridge_capacity "Cantilever" 3 "Concrete" "Box Girder" [("traffic", 10)] [] =
      .ok { moment_capacity_kNm := 45, shear_capacity_kN := 30, pass_fail := "Pass",
            moment_raw := 45, shear_raw := 30 } ∧
    (("Pass" : String) = "Pass" ↔ (30 : ℚ) < 45) := by
  have h : calculate_bridge_capacity "Cantilever" 3 "Concrete" "Box Girder" [("traffic", 10)] [] =
      .ok { moment_capacity_kNm := 45, shear_capacity_kN := 30, pass_fail := "Pass",
            moment_raw := 45, shear_raw := 30 } := by
    norm_num [calculate_bridge_capacity, bridge_materials, bridge_finish, pyRound, pyRoundInt,
      dict_get, show pyLower "Concrete" = "concrete" from by decide,
      show ("Cantilever" : String) ≠ "Simply Supported" from by decide]
  exact ⟨h, C2_amended "Cantilever" 3 "Concrete" "Box Girder" [("traffic", 10)] [] _ h⟩

/-- C9 (counterexample): with the recognized material `"Steel"` and the
supported bridge type `"Simply Supported"`, a zero safety factor makes
`calculate_bridge_capacity` raise `ZeroDivisionError` instead of
returning the result dictionary, so "in all remaining cases it returns
a dictionary" fails as stated. -/
theorem C9_counterexample :
    "Steel" ∈ bridge_materials ∧
    calculate_bridge_capacity "Simply Supported" 1 "Steel" "I-beam" [] [("steel", 0)] =
      .error "ZeroDivisionError: float division by zero" := by
  constructor
  · decide
  · norm_num [calculate_bridge_capacity, bridge_materials, bridge_finish, dict_get,
      show pyLower "Steel" = "steel" from by decide]

/-- C9 (amended): `calculate_bridge_capacity` raises
`ValueError("Material not recognized.")` exactly when the material is
not one of Steel, Concrete, Composite; given a recognized material it
raises `ValueError("Unsupported bridge type.")` exactly when the bridge
type is neither "Simply Supported" nor "Cantilever" (the material check
coming first); and in the remaining cases it returns the dictionary
with `moment_capacity_kNm`, `shear_capacity_kN` (rounded to 2 decimal
places) and `pass_fail` — provided the material's safety factor is not
zero (a zero factor raises `ZeroDivisionError` instead). -/
theorem C9_amended :
    ∀ (bt : String) (sp : ℚ) (mat bs : String) (loads sfs : List (String × ℚ)),
      (calculate_bridge_capacity bt sp mat bs loads sfs = .error "ValueError: Material not recognized." ↔
        mat ∉ bridge_materials) ∧
      (mat ∈ bridge_materials →
        (calculate_bridge_capacity bt sp mat bs loads sfs = .error "ValueError: Unsupported bridge type." ↔
          (bt ≠ "Simply Supported" ∧ bt ≠ "Cantilever"))) ∧
      (mat ∈ bridge_materials → (bt = "Simply Supported" ∨ bt = "Cantilever") →
        dict_get sfs (pyLower mat) 1.0 ≠ 0 →
        ∃ r, calculate_bridge_capacity bt sp mat bs loads sfs = .ok r ∧
          r.moment_capacity_kNm = pyRound 2 r.moment_raw ∧
          r.shear_capacity_kN = pyRound 2 r.shear_raw) := by
  intro bt sp mat bs loads sfs
  by_cases h1 : mat ∉ bridge_materials
  · refine ⟨⟨fun _ => h1, fun _ => ?_⟩, fun hmem => absurd hmem h1, fun hmem => absurd hmem h1⟩
    rw [calculate_bridge_capacity, if_pos h1]
  · refine ⟨⟨fun he => ?_, fun hno => absurd hno h1⟩, fun _ => ⟨fun he => ?_, ?_⟩, fun _ hbt hsf => ?_⟩
    · exfalso
      rw [calculate_bridge_capacity, if_neg h1] at he
      dsimp only at he
      split_ifs at he with hb1 hb2 <;>
        first
          | (rw [bridge_finish] at he
             dsimp only at he
             split_ifs at he with hz <;> simp at he)
          | simp at he
    · rw [calculate_bridge_capacity, if_neg h1] at he
      dsimp only at he
      split_ifs at he with hb1 hb2
      · exfalso
        rw [bridge_finish] at he
        dsimp only at he
        split_ifs at he with hz <;> simp at he
      · exfalso
        rw [bridge_finish] at he
        dsimp only at he
        split_ifs at he with hz <;> simp at he
      · exact ⟨hb1, hb2⟩
    · rintro ⟨hb1, hb2⟩
      rw [calculate_bridge_capacity, if_neg h1]
      dsimp only
      rw [if_neg hb1, if_neg hb2]
    · rw [calculate_bridge_capacity, if_neg h1]
      dsimp only
      rcases hbt with hb | hb
      · rw [if_pos hb, bridge_finish]
        dsimp only
        rw [if_neg hsf]
        exact ⟨_, rfl, rfl, rfl⟩
      · have hbn : ¬bt = "Simply Supported" := by rw [hb]; decide
        rw [if_neg hbn, if_pos hb, bridge_finish]
        dsimp only
        rw [if_neg hsf]
        exact ⟨_, rfl, rfl, rfl⟩

/-- Witness for C9 (amended), exercising each of its three parts at
concrete inputs. -/
theorem C9_amended_witness :
    calculate_bridge_capacity "Arch" 1 "Wood" "I-beam" [] [] = .error "ValueError: Material not recognized." ∧
    calculate_bridge_capacity "Arch" 1 "Steel" "I-beam" [] [] = .error "ValueError: Unsupported bridge type." ∧
    (∃ r, calculate_bridge_capacity "Cantilever" 2 "Steel" "I-beam" [("w", 5)] [] = .ok r ∧
      r.moment_capacity_kNm = pyRound 2 r.moment_raw ∧
      r.shear_capacity_kN = pyRound 2 r.shear_raw) :=
  ⟨(C9_amended "Arch" 1 "Wood" "I-beam" [] []).1.mpr (by decide),
   ((C9_amended "Arch" 1 "Steel" "I-beam" [] []).2.1 (by decide)).mpr (by decide),
   (C9_amended "Cantilever" 2 "Steel" "I-beam" [("w", 5)] []).2.2 (by decide) (Or.inr rfl)
     (by norm_num [dict_get, show pyLower "Steel" = "steel" from by decide])⟩


/-- The chained comparison `keys[i] <= X <= keys[i+1]` of the scan,
rewritten as two nested tests (same value). -/
lemma interpPairs_cons (p q : ℚ × ℚ) (rest : List (ℚ × ℚ)) (X : ℚ) :
    interpPairs (p :: q :: rest) X =
      if p.1 ≤ X then
        if X ≤ q.1 then p.2 + (X - p.1) / (q.1 - p.1) * (q.2 - p.2)
        else interpPairs (q :: rest) X
      else interpPairs (q :: rest) X := by
  by_cases h1 : p.1 ≤ X <;> by_cases h2 : X ≤ q.1 <;> simp [interpPairs, h1, h2]

lemma keyLT_trans : Transitive (fun a b : ℚ × ℚ => a.1 < b.1) :=
  fun _ _ _ h1 h2 => lt_trans h1 h2

lemma interpPairs_interval (X : ℚ) :
    ∀ (l : List (ℚ × ℚ)), List.Chain' (fun a b : ℚ × ℚ => a.1 < b.1) l →
      ∀ p q : ℚ × ℚ, (p, q) ∈ l.zip l.tail → p.1 ≤ X → X ≤ q.1 →
      interpPairs l X = p.2 + (X - p.1) / (q.1 - p.1) * (q.2 - p.2)
  | [], _, p, q, hmem, _, _ => absurd hmem (by simp)
  | [a], _, p, q, hmem, _, _ => absurd hmem (by simp)
  | a :: b :: t, hchain, p, q, hmem, h1, h2 => by
    haveI : IsTrans (ℚ × ℚ) (fun a b : ℚ × ℚ => a.1 < b.1) := ⟨keyLT_trans⟩
    rw [List.tail_cons, List.zip_cons_cons] at hmem
    obtain ⟨hab, hchain2⟩ := List.chain'_cons.mp hchain
    rcases List.mem_cons.mp hmem with heq | hmem2
    · rw [Prod.mk.injEq] at heq
      obtain ⟨hp, hq⟩ := heq
      subst hp
      subst hq
      rw [interpPairs_cons, if_pos h1, if_pos h2]
    · have hpmem : p ∈ b :: t := (List.of_mem_zip hmem2).1
      by_cases hxb : X ≤ b.1
      · have hpb : p = b := by
          rcases List.mem_cons.mp hpmem with h | hpt
          · exact h
          · exfalso
            have hlt := List.rel_of_pairwise_cons (List.chain'_iff_pairwise.mp hchain2) hpt
            linarith
        subst hpb
        have hx : X = p.1 := le_antisymm hxb h1
        have hax : a.1 ≤ X := by rw [hx]; exact le_of_lt hab
        rw [interpPairs_cons, if_pos hax, if_pos hxb]
        have hne : p.1 - a.1 ≠ 0 := sub_ne_zero.mpr (ne_of_gt hab)
        rw [hx, div_self hne]
        ring
      · rw [interpPairs_cons]
        by_cases hax : a.1 ≤ X
        · rw [if_pos hax, if_neg hxb]
          exact interpPairs_interval X (b :: t) hchain2 p q hmem2 h1 h2
        · rw [if_neg hax]
          exact interpPairs_interval X (b :: t) hchain2 p q hmem2 h1 h2

lemma lookup_table_sorted : List.Chain' (fun a b : ℚ × ℚ => a.1 < b.1) lookup_table := by
  simp only [lookup_table, List.chain'_cons, List.chain'_singleton, and_true]
  norm_num

lemma lookup_adj_facts :
    ∀ p q : ℚ × ℚ, (p, q) ∈ lookup_table.zip lookup_table.tail →
      0 ≤ p.1 ∧ p.1 < q.1 ∧ q.1 ≤ 200 ∧ (p.1 ≤ 0 → p.2 = 1) ∧ (200 ≤ q.1 → q.2 = 0.18) := by
  intro p q hmem
  simp only [lookup_table, List.tail_cons, List.zip_cons_cons, List.zip_nil_right] at hmem
  fin_cases hmem <;> norm_num


/-- C6: `get_lookup_factor` and `calculate_v_from_F` compute the
clamped piecewise-linear interpolation of their static tables: at or
below the smallest key they return the first value (1.0), at or above
the largest key the last value (0.18 at key 200, resp. 0.468 at key
20), and between two adjacent keys the linear interpolation of the two
table values. -/
theorem C6_clamped_interpolation :
    (∀ X : ℚ,
      (X ≤ 0 → get_lookup_factor X = 1.0) ∧
      (200 ≤ X → get_lookup_factor X = 0.18) ∧
      (∀ p q : ℚ × ℚ, (p, q) ∈ lookup_table.zip lookup_table.tail →
        p.1 ≤ X → X ≤ q.1 →
        get_lookup_factor X = p.2 + (X - p.1) / (q.1 - p.1) * (q.2 - p.2))) ∧
    (∀ F : ℚ,
      (F ≤ 0 → calculate_v_from_F F = 1.0) ∧
      (20 ≤ F → calculate_v_from_F F = 0.468) ∧
      (∀ n : ℕ, n < 20 → (n : ℚ) ≤ F → F ≤ (n : ℚ) + 1 →
        calculate_v_from_F F = vTable n + (F - n) * (vTable (n + 1) - vTable n))) := by
  constructor
  · intro X
    refine ⟨fun h0 => ?_, fun h200 => ?_, fun p q hmem h1 h2 => ?_⟩
    · rw [get_lookup_factor, if_pos h0]
    · rw [get_lookup_factor, if_neg (by linarith), if_pos h200]
    · obtain ⟨hp0, hpq, hq200, hpv, hqv⟩ := lookup_adj_facts p q hmem
      rw [get_lookup_factor]
      split_ifs with hx0 hx200
      · have hp1 : p.1 ≤ 0 := le_trans h1 hx0
        have hXp : X = p.1 := le_antisymm (by linarith) h1
        rw [hpv hp1, hXp]
        ring
      · have hq1 : (200 : ℚ) ≤ q.1 := le_trans hx200 h2
        have hXq : X = q.1 := le_antisymm h2 (by linarith)
        have hne : q.1 - p.1 ≠ 0 := sub_ne_zero.mpr (ne_of_gt hpq)
        rw [hqv hq1, hXq, div_self hne]
        ring
      · exact interpPairs_interval X lookup_table lookup_table_sorted p q hmem h1 h2
  · intro F
    refine ⟨fun h0 => ?_, fun h20 => ?_, fun n hn h1 h2 => ?_⟩
    · rw [calculate_v_from_F, if_pos h0]
    · rw [calculate_v_from_F, if_neg (by linarith), if_pos h20]
      norm_num [vTable]
    · rcases le_or_lt F 0 with hF0 | hF0
      · have hn0 : (n : ℚ) ≤ 0 := le_trans h1 hF0
        have hn0n : n = 0 := by exact_mod_cast le_antisymm (by exact_mod_cast hn0) (Nat.zero_le n)
        subst hn0n
        have hF : F = 0 := le_antisymm hF0 (by exact_mod_cast h1)
        subst hF
        rw [calculate_v_from_F, if_pos le_rfl]
        norm_num [vTable]
      · rcases lt_or_le F 20 with hF20 | hF20
        · rw [calculate_v_from_F, if_neg (by linarith), if_neg (by linarith)]
          rcases eq_or_lt_of_le h2 with heq | hlt
          · subst heq
            have hfl : ⌊(n : ℚ) + 1⌋ = (n : ℤ) + 1 := by
              rw [show ((n : ℚ) + 1) = (((n : ℤ) + 1 : ℤ) : ℚ) by push_cast; ring,
                Int.floor_intCast]
            dsimp only
            rw [hfl]
            have ht : ((n : ℤ) + 1).toNat = n + 1 := by omega
            rw [ht]
            push_cast
            ring
          · have hfl : ⌊F⌋ = (n : ℤ) := by
              rw [Int.floor_eq_iff]
              constructor
              · exact_mod_cast h1
              · push_cast
                exact hlt
            dsimp only
            rw [hfl]
            have ht : ((n : ℤ)).toNat = n := by omega
            rw [ht]
            push_cast
            ring
        · have hn19 : n = 19 := by
            have h20n : (20 : ℚ) ≤ (n : ℚ) + 1 := le_trans hF20 h2
            have h19 : (19 : ℚ) ≤ (n : ℚ) := by linarith
            have h19n : 19 ≤ n := by exact_mod_cast h19
            omega
          subst hn19
          have hF : F = 20 := by
            push_cast at h2
            norm_num at h2
            exact le_antisymm h2 hF20
          subst hF
          rw [calculate_v_from_F, if_neg (by norm_num), if_pos (by norm_num)]
          norm_num [vTable]

/-- Witness for C6, exercising both clamps and the interpolation of
both functions at concrete arguments. -/
theorem C6_witness :
    get_lookup_factor (-1) = 1.0 ∧
    get_lookup_factor 240 = 0.18 ∧
    get_lookup_factor 45 = 0.9 + (45 - 40) / (50 - 40) * (0.79875 - 0.9) ∧
    calculate_v_from_F (-1) = 1.0 ∧
    calculate_v_from_F 25 = 0.468 ∧
    calculate_v_from_F 2.5 = vTable 2 + (2.5 - 2) * (vTable 3 - vTable 2) := by
  obtain ⟨hg, hv⟩ := C6_clamped_interpolation
  refine ⟨(hg (-1)).1 (by norm_num), (hg 240).2.1 (by norm_num), ?_,
          (hv (-1)).1 (by norm_num), (hv 25).2.1 (by norm_num), ?_⟩
  · have hm : (((40 : ℚ), (0.9 : ℚ)), ((50 : ℚ), (0.79875 : ℚ))) ∈
        lookup_table.zip lookup_table.tail := by
      simp only [lookup_table, List.tail_cons, List.zip_cons_cons, List.zip_nil_right]
      norm_num
    simpa using (hg 45).2.2 (40, 0.9) (50, 0.79875) hm (by norm_num) (by norm_num)
  · have := (hv 2.5).2.2 2 (by norm_num) (by norm_num) (by norm_num)
    simpa using this


/-- One pass of the additional-load loop, expressed through the
claim-side per-load contributions. -/
lemma applied_load_step_eq (L : ℚ) (acc : ℚ × ℚ × ℚ) (l : AddLoad) :
    applied_load_step L acc l =
      (if (if pyLower l.type = "" then "live" else pyLower l.type) = "dead"
       then (acc.1 + load_moment_contrib L l, acc.2.1, acc.2.2 + load_shear_contrib L l)
       else (acc.1, acc.2.1 + load_moment_contrib L l, acc.2.2 + load_shear_contrib L l)) := by
  rw [applied_load_step, load_moment_contrib, load_shear_contrib]
  split_ifs <;> rfl

/-- The loop accumulators equal the sums of the per-load
contributions. -/
lemma applied_fold_sum (L : ℚ) :
    ∀ (loads : List AddLoad) (a b c : ℚ),
      ((loads.foldl (applied_load_step L) (a, b, c)).1 +
        (loads.foldl (applied_load_step L) (a, b, c)).2.1 =
          a + b + (loads.map (load_moment_contrib L)).sum) ∧
      ((loads.foldl (applied_load_step L) (a, b, c)).2.2 =
          c + (loads.map (load_shear_contrib L)).sum)
  | [], a, b, c => by simp
  | l :: ls, a, b, c => by
    rw [List.foldl_cons, applied_load_step_eq]
    simp only [List.map_cons, List.sum_cons]
    by_cases hd : (if pyLower l.type = "" then "live" else pyLower l.type) = "dead"
    · rw [if_pos hd]
      have ih := applied_fold_sum L ls (a + load_moment_contrib L l) b (c + load_shear_contrib L l)
      constructor
      · rw [ih.1]; ring
      · rw [ih.2]; ring
    · rw [if_neg hd]
      have ih := applied_fold_sum L ls a (b + load_moment_contrib L l) (c + load_shear_contrib L l)
      constructor
      · rw [ih.1]; ring
      · rw [ih.2]; ring

/-- C4 (amended): for HA loading with a nonzero span,
`calculate_applied_loads` returns a total applied moment equal to the
base moment plus the sum of the additional load moment contributions
(dead loads scaled by their material safety factor, live loads
unscaled) — exactly as claimed — but the total applied shear is the
effective-UDL reaction plus the *full* knife-edge load plus the shear
contributions (line 399), i.e. the base shear of line 347 plus an
extra `kel/2`; for HA loading with a zero span the function raises
`ZeroDivisionError` at `1 / span_length` on line 338 and returns
nothing; and for every loading type other than HA (including HB) the
function raises `NameError` at the breakdown line 368 (`base_udl` is
assigned only in the HA branch) and returns nothing. -/
theorem C4_amended :
    ∀ (env : PyEnv) (span_length : ℚ) (loads : List AddLoad) (lw af : Option ℚ),
      (span_length ≠ 0 →
        ∃ out : AppliedOut,
          calculate_applied_loads env span_length (some "HA") loads lw af = .ok out ∧
          out.total_applied_moment =
            ha_base_moment env span_length lw af + (loads.map (load_moment_contrib span_length)).sum ∧
          out.total_applied_shear =
            ha_base_shear env span_length lw af + ha_kel span_length lw af / 2 +
              (loads.map (load_shear_contrib span_length)).sum) ∧
      (span_length = 0 →
        calculate_applied_loads env span_length (some "HA") loads lw af =
          .error "ZeroDivisionError: float division by zero") ∧
      (∀ lt : Option String, lt ≠ some "HA" →
        calculate_applied_loads env span_length lt loads lw af =
          .error "NameError: name base_udl is not defined") := by
  intro env L loads lw af
  refine ⟨fun hsp => ?_, fun hsp => ?_, fun lt hlt => ?_⟩
  · rw [calculate_applied_loads.eq_def, if_pos rfl, if_neg hsp]
    refine ⟨_, rfl, ?_, ?_⟩
    · have h := (applied_fold_sum L loads 0 0 0).1
      rw [ha_base_moment, ha_effective_udl.eq_def, ha_kel.eq_def]
      dsimp only
      linarith [h]
    · have h := (applied_fold_sum L loads 0 0 0).2
      rw [ha_base_shear, ha_effective_udl.eq_def, ha_kel.eq_def]
      dsimp only
      linarith [h]
  · rw [calculate_applied_loads.eq_def, if_pos rfl, if_pos hsp]
  · rw [calculate_applied_loads.eq_def, if_neg hlt]


/-- C4 (counterexample): at span 8 with HA loading and no additional
loads, the returned total applied shear is 989.976 (with the library
stub `rpow = 1`), while the claimed "base shear plus shear
contributions" is 949.468 — the code adds the full KEL where the base
shear has half of it; and for HB loading the function raises instead
of returning the claimed totals. -/
theorem C4_counterexample :
    (calculate_applied_loads envC 8 (some "HA") [] (some 3.65) (some 1.3)).toOption.map
        (fun o => o.total_applied_shear) = some (989.976 : ℚ) ∧
    ha_base_shear envC 8 (some 3.65) (some 1.3) +
      (([] : List AddLoad).map (load_shear_contrib 8)).sum = (949.468 : ℚ) ∧
    (989.976 : ℚ) ≠ 949.468 ∧
    calculate_applied_loads envC 8 (some "HB") [] (some 3.65) (some 1.3) =
      .error "NameError: name base_udl is not defined" := by
  refine ⟨?_, ?_, by norm_num, ?_⟩
  · norm_num [calculate_applied_loads.eq_def, envC, Except.toOption, List.foldl]
  · norm_num [ha_base_shear, ha_effective_udl.eq_def, ha_kel.eq_def, envC]
  · norm_num [calculate_applied_loads.eq_def, show ("HB" : String) ≠ "HA" from by decide]

/-- Witness for C4 (amended) at a concrete input (both conjuncts). -/
theorem C4_amended_witness :
    (∃ out : AppliedOut,
      calculate_applied_loads envC 8 (some "HA") [] (some 3.65) (some 1.3) = .ok out ∧
      out.total_applied_moment =
        ha_base_moment envC 8 (some 3.65) (some 1.3) +
          (([] : List AddLoad).map (load_moment_contrib 8)).sum ∧
      out.total_applied_shear =
        ha_base_shear envC 8 (some 3.65) (some 1.3) + ha_kel 8 (some 3.65) (some 1.3) / 2 +
          (([] : List AddLoad).map (load_shear_contrib 8)).sum) ∧
    calculate_applied_loads envC 8 (some "HB") [] (some 3.65) (some 1.3) =
      .error "NameError: name base_udl is not defined" :=
  ⟨(C4_amended envC 8 [] (some 3.65) (some 1.3)).1 (by norm_num),
   (C4_amended envC 8 [] (some 3.65) (some 1.3)).2.2 (some "HB") (by decide)⟩


/-- `listMax` (maximum with 0) is nonnegative. -/
lemma listMax_nonneg : ∀ l : List ℚ, 0 ≤ listMax l
  | [] => le_refl 0
  | x :: xs => le_trans (listMax_nonneg xs) (le_max_right x (listMax xs))

/-- A running-maximum fold equals the maximum of the start value and
the list maximum. -/
lemma foldl_max_map {α : Type} (f : α → ℚ) :
    ∀ (l : List α) (c : ℚ), 0 ≤ c →
      l.foldl (fun m x => max m (f x)) c = max c (listMax (l.map f))
  | [], c, hc => by
    rw [List.foldl_nil, List.map_nil]
    exact (max_eq_left hc).symm
  | x :: xs, c, hc => by
    rw [List.foldl_cons, List.map_cons,
      foldl_max_map f xs (max c (f x)) (le_trans hc (le_max_left c (f x)))]
    rw [show listMax (f x :: xs.map f) = max (f x) (listMax (xs.map f)) from rfl, max_assoc]

/-- A componentwise pair of running-maximum folds splits into two
scalar folds. -/
lemma foldl_pair_max {α : Type} (f g : α → ℚ) :
    ∀ (l : List α) (c : ℚ × ℚ),
      l.foldl (fun mv x => (max mv.1 (f x), max mv.2 (g x))) c =
        (l.foldl (fun m x => max m (f x)) c.1, l.foldl (fun m x => max m (g x)) c.2)
  | [], _ => rfl
  | x :: xs, c => by
    rw [List.foldl_cons, List.foldl_cons, List.foldl_cons]
    exact foldl_pair_max f g xs (max c.1 (f x), max c.2 (g x))

/-- `listMax` distributes over append. -/
lemma listMax_append : ∀ l1 l2 : List ℚ, listMax (l1 ++ l2) = max (listMax l1) (listMax l2)
  | [], l2 => by
    rw [List.nil_append]
    exact (max_eq_right (listMax_nonneg l2)).symm
  | x :: xs, l2 => by
    rw [List.cons_append]
    show max x (listMax (xs ++ l2)) = max (max x (listMax xs)) (listMax l2)
    rw [listMax_append xs l2, max_assoc]

/-- The maximum over a flattened family is the maximum of the per-group
maxima. -/
lemma listMax_flatMap {α : Type} (h : α → List ℚ) :
    ∀ l : List α, listMax (l.flatMap h) = listMax (l.map fun a => listMax (h a))
  | [] => by rw [List.flatMap_nil, List.map_nil]
  | a :: t => by
    rw [List.flatMap_cons, List.map_cons, listMax_append, listMax_flatMap h t]
    rfl

/-- First component of the inner section scan of the vehicle search. -/
lemma inner_fst (f g : ℚ → ℚ → ℚ) (xs : List ℚ) (a : ℚ) :
    ((xs.foldl (fun (mv : ℚ × ℚ) x => (max mv.1 (f a x), max mv.2 (g a x))) (0, 0)).1) =
      listMax (xs.map (f a)) := by
  rw [foldl_pair_max]
  show xs.foldl (fun m x => max m (f a x)) 0 = _
  rw [foldl_max_map (f a) xs 0 le_rfl, max_eq_right (listMax_nonneg _)]

/-- Second component of the inner section scan of the vehicle search. -/
lemma inner_snd (f g : ℚ → ℚ → ℚ) (xs : List ℚ) (a : ℚ) :
    ((xs.foldl (fun (mv : ℚ × ℚ) x => (max mv.1 (f a x), max mv.2 (g a x))) (0, 0)).2) =
      listMax (xs.map (g a)) := by
  rw [foldl_pair_max]
  show xs.foldl (fun m x => max m (g a x)) 0 = _
  rw [foldl_max_map (g a) xs 0 le_rfl, max_eq_right (listMax_nonneg _)]

/-- The nested axle-position/section scan computes the grid maxima of
both quantities. -/
lemma nested_pair_max (f g : ℚ → ℚ → ℚ) (as2 xs : List ℚ) :
    as2.foldl (fun (w : ℚ × ℚ) a =>
        (max w.1 ((xs.foldl (fun (mv : ℚ × ℚ) x => (max mv.1 (f a x), max mv.2 (g a x))) (0, 0)).1),
         max w.2 ((xs.foldl (fun (mv : ℚ × ℚ) x => (max mv.1 (f a x), max mv.2 (g a x))) (0, 0)).2)))
      (0, 0) =
    (listMax (as2.flatMap fun a => xs.map (f a)), listMax (as2.flatMap fun a => xs.map (g a))) := by
  rw [foldl_pair_max]
  dsimp only
  simp only [inner_fst f g xs, inner_snd f g xs]
  rw [foldl_max_map (fun a => listMax (xs.map (f a))) as2 0 le_rfl,
      foldl_max_map (fun a => listMax (xs.map (g a))) as2 0 le_rfl]
  rw [max_eq_right (listMax_nonneg _), max_eq_right (listMax_nonneg _)]
  rw [listMax_flatMap, listMax_flatMap]

/-- C5: for every span, vehicle type, impact factor, wheel dispersion
and axle mode, `calculate_vehicle_loads` returns the impact factor
times the maximum absolute bending moment (resp. shear) of the
factored two-axle load over the discretized grid of leading-axle
positions `a ∈ drange 0 (L - spacing) 0.01` and section positions
`x ∈ drange 0 L 0.01`, and `(0.0, 0.0)` for every unrecognized vehicle
type — an unconditional equation against the claim-side
`vehicle_loads_spec`. -/
theorem C5_vehicle_search :
    ∀ (env : PyEnv) (L : ℚ) (vt : String) (imp : ℚ) (wd am : String),
      calculate_vehicle_loads env L vt imp wd am = vehicle_loads_spec env L vt imp wd am := by
  intro env L vt imp wd am
  rcases hp : vehicle_params (pyLower (pyStrip vt)) with _ | ⟨spacing, P1a, P2a⟩
  · rw [calculate_vehicle_loads.eq_def, vehicle_loads_spec.eq_def]
    dsimp only
    rw [hp]
  · rw [calculate_vehicle_loads.eq_def, vehicle_loads_spec.eq_def]
    dsimp only
    rw [hp]
    dsimp only
    simp only [show (0.0 : ℚ) = 0 from by norm_num]
    rw [nested_pair_max]
    rw [VehicleLoads.mk.injEq]
    constructor <;> ring


/-- The `"Pass"`/`"Fail"` selection reflects its condition. -/
lemma pass_fail_iff (c : Prop) [Decidable c] :
    ((if c then ("Pass" : String) else "Fail") = "Pass") ↔ c := by
  split_ifs with h
  · exact ⟨fun _ => h, fun _ => rfl⟩
  · constructor
    · intro hx
      exact absurd hx (by decide)
    · intro hcon
      exact absurd hcon h

/-- For a non-steel material the branch output carries no steel data
(so the self-weight term of app.py:553-557 is zero). -/
lemma material_branch_steel_none :
    ∀ (env : PyEnv) (fd : FormData) (reinf : ReinfForm) (cf el : ℚ) (br : BranchOut),
      fd.material ≠ some "Steel" →
      material_branch env fd reinf cf el = .ok (.inr br) → br.steel = Option.none := by
  intro env fd reinf cf el br hns h
  rw [material_branch.eq_def, if_neg hns] at h
  split_ifs at h with h1 h2
  · dsimp only at h
    split at h
    · exact Except.noConfusion h
    · split_ifs at h <;>
        first
          | simp at h
          | (split at h <;>
              first
                | (rw [Except.ok.injEq, Sum.inr.injEq] at h
                   rw [← h])
                | simp at h)
  · rw [Except.ok.injEq, Sum.inr.injEq] at h
    rw [← h]
  · rw [Except.ok.injEq, Sum.inr.injEq] at h
    rw [← h]

/-- C1: for every form submission with material Steel, Concrete or
Timber for which `calculate_beam_capacity` returns a result dictionary,
the `"Pass/Fail"` entry is `"Pass"` exactly when the computed moment
capacity is at least the total applied moment and the computed shear
capacity is at least the applied shear (app.py:561); the total applied
moment is the applied-loads moment plus the self-weight moment, and the
self-weight moment is zero unless the material is Steel. -/
theorem C1_pass_fail :
    ∀ (env : PyEnv) (fd : FormData) (reinf : ReinfForm) (loads : List AddLoad) (r : BeamResult),
      (fd.material = some "Steel" ∨ fd.material = some "Concrete" ∨ fd.material = some "Timber") →
      calculate_beam_capacity env fd reinf loads = .ok (.result r) →
      ((r.pass_fail = "Pass" ↔
          (r.total_applied_moment_raw ≤ r.moment_capacity_raw ∧
           r.applied_shear_raw ≤ r.shear_capacity_raw)) ∧
       r.total_applied_moment_raw = r.applied_moment_raw + r.self_weight_moment_raw ∧
       (fd.material ≠ some "Steel" → r.self_weight_moment_raw = 0)) := by
  intro env fd reinf loads r _hmat h
  rw [calculate_beam_capacity.eq_def] at h
  dsimp only at h
  split at h
  · exact Except.noConfusion h
  · simp at h
  · rename_i br heq
    split at h
    · exact Except.noConfusion h
    · rename_i ap hap
      rw [Except.ok.injEq, BeamReturn.result.injEq] at h
      subst h
      refine ⟨pass_fail_iff _, rfl, ?_⟩
      intro hns
      have hn := material_branch_steel_none env fd reinf _ _ br hns heq
      dsimp only
      rw [hn]
      norm_num


/-- Witness for C1 at a concrete Timber/HA submission (the computed
result fails the check, and the equivalence holds). -/
theorem C1_witness :
    calculate_beam_capacity envC fdTimberW ⟨[], [], []⟩ [] = .ok (.result c1res) ∧
    (c1res.pass_fail = "Pass" ↔
      (c1res.total_applied_moment_raw ≤ c1res.moment_capacity_raw ∧
       c1res.applied_shear_raw ≤ c1res.shear_capacity_raw)) := by
  have h : calculate_beam_capacity envC fdTimberW ⟨[], [], []⟩ [] = .ok (.result c1res) := by
    norm_num [c1res, calculate_beam_capacity.eq_def, material_branch.eq_def, calculate_timber_beam,
      timber_props, get_float_opt, get_float, pyTruthy, envC, fdTimberW, pyRound, pyRoundInt,
      calculate_applied_loads.eq_def, calculate_effective_length, List.foldl,
      show pyStrip "1" = "1" from by decide, show pyStrip "" = "" from rfl,
      show pyLower "Company" = "company" from by decide,
      show ("1" : String) ≠ "" from by decide,
      show ("Timber" : String) ≠ "Steel" from by decide,
      show ("Timber" : String) ≠ "Concrete" from by decide,
      show ("company" : String) ≠ "public" from by decide]
  exact ⟨h, (C1_pass_fail envC fdTimberW ⟨[], [], []⟩ [] c1res (Or.inr (Or.inr rfl)) h).1⟩


